import Mathlib

/-!
Verification development for the Bilibili homepage regret-pill content script
(src/content.js): a state-capture and restore engine over a live DOM tree.

The DOM is shallowly embedded: element nodes are finite trees carrying the
tag name, the attribute list, the own text content, the rendered offset
sizes and the inline style text.  Only element nodes are modelled, because
every traversal in the source (`container.children`, `querySelector`,
`querySelectorAll`) visits element nodes only.  Tag names are normalised to
lower case.  `a.href` (the resolved URL property) is modelled as the `href`
attribute itself: every comparison in the source resolves both sides the
same way, so identity resolution is behaviour-preserving.

The mutable script state (`STATE` in the source) is an explicit record
threaded through the operations; ambient DOM queries that the script makes
(`findRefreshButton`, `findSafeGridContainer`, `getElementById`,
`isConnected`) are modelled by an environment record describing the host
document at the moment of the call.
-/

/-! ### String helpers (JS `includes`, `toLowerCase`, `trim`, `startsWith`) -/

/-- Does `pat` occur at the head of the character list? -/
def matchesAt : List Char → List Char → Bool
  | [], _ => true
  | _ :: _, [] => false
  | p :: ps, c :: cs => p == c && matchesAt ps cs

/-- Does `pat` occur anywhere in the character list? -/
def hasSub (pat : List Char) : List Char → Bool
  | [] => pat.isEmpty
  | c :: cs => matchesAt pat (c :: cs) || hasSub pat cs

/-- JS `s.includes(pat)` (for the non-empty literal patterns the script uses). -/
def strContains (s pat : String) : Bool := hasSub pat.data s.data

/-- JS `s.toLowerCase()` (ASCII, which covers every keyword the script tests). -/
def strLower (s : String) : String := ⟨s.data.map Char.toLower⟩

/-- JS `s.startsWith(pat)`. -/
def strStartsWith (s pat : String) : Bool := matchesAt pat.data s.data

def isWsChar (c : Char) : Bool := c == ' ' || c == '\t' || c == '\n' || c == '\r'

/-- JS `s.trim() === ''`: every character is whitespace. -/
def strBlank (s : String) : Bool := s.data.all isWsChar

/-- JS falsy-chaining `a || b` on nullable strings (`null` and `''` are falsy). -/
def jsOrS (a b : Option String) : Option String :=
  match a with
  | some s => if s == "" then b else some s
  | none => b

/-! ### DOM model -/

/-- The per-element data of a DOM element node.  `text` is the node's own
text contribution; `offsetWidth`/`offsetHeight` are the rendered sizes the
script reads; `style` is the inline style text (written but never read by
the script). -/
structure ElemData where
  tag : String
  attrs : List (String × String)
  text : String
  offsetWidth : Nat
  offsetHeight : Nat
  style : String
deriving DecidableEq, Repr

mutual
/-- A DOM element node: data plus the list of element children. -/
inductive Node where
  | mk (data : ElemData) (children : NodeList)
/-- A list of element nodes (mutually inductive with `Node` so that all
tree recursions are structural and kernel-evaluable). -/
inductive NodeList where
  | nil
  | cons (head : Node) (tail : NodeList)
end

mutual
def Node.beq : Node → Node → Bool
  | .mk d1 c1, .mk d2 c2 => d1 == d2 && NodeList.beq c1 c2
def NodeList.beq : NodeList → NodeList → Bool
  | .nil, .nil => true
  | .cons h1 t1, .cons h2 t2 => Node.beq h1 h2 && NodeList.beq t1 t2
  | .nil, .cons _ _ => false
  | .cons _ _, .nil => false
end

mutual
theorem nodeBeqEq : ∀ (a b : Node), Node.beq a b = true ↔ a = b
  | .mk d1 c1, .mk d2 c2 => by
    simp [Node.beq, nodeListBeqEq c1 c2, Node.mk.injEq, beq_iff_eq, Bool.and_eq_true]
theorem nodeListBeqEq : ∀ (a b : NodeList), NodeList.beq a b = true ↔ a = b
  | .nil, .nil => by simp [NodeList.beq]
  | .cons h1 t1, .cons h2 t2 => by
    simp [NodeList.beq, Bool.and_eq_true, nodeBeqEq h1 h2, nodeListBeqEq t1 t2,
      NodeList.cons.injEq]
  | .nil, .cons _ _ => by simp [NodeList.beq]
  | .cons _ _, .nil => by simp [NodeList.beq]
end

instance : DecidableEq Node := fun a b =>
  decidable_of_iff (Node.beq a b = true) (nodeBeqEq a b)

instance : DecidableEq NodeList := fun a b =>
  decidable_of_iff (NodeList.beq a b = true) (nodeListBeqEq a b)

def NodeList.toList : NodeList → List Node
  | .nil => []
  | .cons h t => h :: t.toList

/-- Build a `NodeList` from a `List Node`. -/
def listN (l : List Node) : NodeList := l.foldr .cons .nil

theorem toList_listN (l : List Node) : (listN l).toList = l := by
  induction l with
  | nil => rfl
  | cons h t ih => simp [listN, NodeList.toList] at ih ⊢; exact ih

def Node.data : Node → ElemData
  | .mk d _ => d

/-- `element.children`, in document order. -/
def Node.children : Node → List Node
  | .mk _ cs => cs.toList

/-- Replace an element's children (the only structural mutation `restore`
performs on the container). -/
def Node.withChildren (n : Node) (cs : List Node) : Node := .mk n.data (listN cs)

theorem children_withChildren (n : Node) (cs : List Node) :
    (n.withChildren cs).children = cs := by
  simp [Node.withChildren, Node.children, toList_listN]

theorem data_withChildren (n : Node) (cs : List Node) :
    (n.withChildren cs).data = n.data := by
  simp [Node.withChildren, Node.data]

/-- `getAttribute`, with JS's `String(x || '')` coercion to the empty string. -/
def attrD (n : Node) (name : String) : String :=
  match n.data.attrs.find? (fun a => a.1 == name) with
  | some a => a.2
  | none => ""

/-- `getAttribute` proper: `none` when the attribute is absent. -/
def attrOpt (n : Node) (name : String) : Option String :=
  match n.data.attrs.find? (fun a => a.1 == name) with
  | some a => some a.2
  | none => none

/-- The `id` property (empty string when the attribute is absent). -/
def idProp (n : Node) : String := attrD n "id"

/-- The `className` property guarded by `|| ''` as the script writes it. -/
def classNameOf (n : Node) : String := attrD n "class"

/-! ### Tree traversals (`querySelector` over the one selector the script uses) -/

/-- Does this element match `a[href*="/video/BV"]`? -/
def isBVAnchor (n : Node) : Bool :=
  n.data.tag == "a" && strContains (attrD n "href") "/video/BV"

mutual
/-- `node.querySelector('a[href*="/video/BV"]') !== null`: the selector
matches strict descendants only, never the node itself. -/
def hasBVDesc : Node → Bool
  | .mk _ cs => hasBVDescL cs
def hasBVDescL : NodeList → Bool
  | .nil => false
  | .cons c cs => isBVAnchor c || hasBVDesc c || hasBVDescL cs
end

mutual
/-- First content link inside a subtree, the node itself included
(pre-order, i.e. document order). -/
def firstBVN : Node → Option Node
  | .mk d cs =>
    if isBVAnchor (.mk d cs) then some (.mk d cs) else firstBVL cs
def firstBVL : NodeList → Option Node
  | .nil => none
  | .cons c cs =>
    match firstBVN c with
    | some a => some a
    | none => firstBVL cs
end

/-- `fragment.querySelector('a[href*="/video/BV"]')`: a fragment's search
visits each top-level child and its subtree, in document order. -/
def firstBVFrag : List Node → Option Node
  | [] => none
  | n :: rest =>
    match firstBVN n with
    | some a => some a
    | none => firstBVFrag rest

mutual
/-- DOM `child.contains(target)` (which includes `child === target`); the
script always writes the redundant `child.contains(b) || child === b`. -/
def containsOrIs : Node → Node → Bool
  | child, target =>
    Node.beq child target ||
      (match child with | .mk _ cs => containsOrIsL cs target)
def containsOrIsL : NodeList → Node → Bool
  | .nil, _ => false
  | .cons c cs, target => containsOrIs c target || containsOrIsL cs target
end

/-- `ref && (child.contains(ref) || child === ref)` for a nullable reference. -/
def containsRef (ref : Option Node) (child : Node) : Bool :=
  match ref with
  | some b => containsOrIs child b
  | none => false

mutual
/-- `node.textContent`: concatenation of the node's own text and its
descendants' text. -/
def textContent : Node → String
  | .mk d cs => d.text ++ textContentL cs
def textContentL : NodeList → String
  | .nil => ""
  | .cons c cs => textContent c ++ textContentL cs
end

/-- The resolved URL of a link, `a.href`.  URL resolution is modelled as the
identity on the attribute value: every comparison in the source reads the
`href` property on both sides, so any fixed resolution cancels out. -/
def hrefProp (n : Node) : String := attrD n "href"

/-! ### Configuration (the `CONFIG` literal) -/

def INIT_RETRY_DELAY : Nat := 300
def MAX_INIT_ATTEMPTS : Nat := 20
def DEBOUNCE_TIME : Nat := 400
def MIN_VIDEOS : Nat := 4

/-- `STATE.uiContainerId`. -/
def uiContainerId : String := "regret-pill-ui-group"

/-! ### Classifier (`SnapshotService.isVideoNode` / `isSentinelNode`) -/

/-- `SnapshotService.isVideoNode`.  The `nodeType !== 1` early exit never
fires in the model, which contains element nodes only (all the callers pass
members of `container.children`). -/
def isVideoNode (n : Node) : Bool :=
  hasBVDesc n || strContains (classNameOf n) "card" || strContains (classNameOf n) "video"

def sentinelNameKeywords : List String :=
  ["skeleton", "placeholder", "loading", "infinite", "scroll", "sentinel",
   "observer", "load-more", "lazy", "pager", "foot", "bottom"]

def sentinelDataKeywords : List String :=
  ["observe", "observer", "infinite", "load", "scroll", "sentinel", "lazy", "skeleton"]

/-- `SnapshotService.isSentinelNode`. -/
def isSentinelNode (n : Node) : Bool :=
  if hasBVDesc n then false
  else
    let cls := strLower (classNameOf n)
    let ids := strLower (idProp n)
    let role := strLower (attrD n "role")
    let ariaBusy := strLower (attrD n "aria-busy")
    let dataKeys := n.data.attrs.map (fun a => strLower a.1)
    let classHit := sentinelNameKeywords.any (fun k => strContains cls k)
    let idHit := sentinelNameKeywords.any (fun k => strContains ids k)
    let roleHit := role == "status" || role == "progressbar"
    let ariaHit := ariaBusy == "true"
    let dataHit := dataKeys.any (fun key => sentinelDataKeywords.any (fun k => strContains key k))
    let emptyHit := n.children.isEmpty && strBlank (textContent n) &&
      (n.data.offsetHeight ≤ 8 || n.data.offsetWidth ≤ 8)
    classHit || idHit || roleHit || ariaHit || dataHit || emptyHit

/-- A node the engine treats as replaceable content: a video card that is
not a sentinel (the conjunction `capture` and `restore` both test). -/
def contentNode (n : Node) : Bool := isVideoNode n && !isSentinelNode n

/-! ### `SnapshotService.fixImages` -/

def removeAttrL (attrs : List (String × String)) (name : String) : List (String × String) :=
  attrs.filter (fun a => !(a.1 == name))

def setAttrL (attrs : List (String × String)) (name v : String) : List (String × String) :=
  if attrs.any (fun a => a.1 == name) then
    attrs.map (fun a => if a.1 == name then (a.1, v) else a)
  else attrs ++ [(name, v)]

/-- The per-image step of `fixImages`: copy a deferred source into `src`,
strip the lazy-loading markers, force visible styling. -/
def imgFixData (d : ElemData) : ElemData :=
  if d.tag == "img" then
    let srcProp := match d.attrs.find? (fun a => a.1 == "src") with
      | some a => a.2
      | none => ""
    let src := match jsOrS (match d.attrs.find? (fun a => a.1 == "data-src") with
        | some a => some a.2
        | none => none)
      (jsOrS (match d.attrs.find? (fun a => a.1 == "data-original-src") with
        | some a => some a.2
        | none => none) (some srcProp)) with
      | some s => s
      | none => ""
    if src != "" && !strStartsWith src "data:" then
      { d with
        attrs := setAttrL (removeAttrL (removeAttrL d.attrs "srcset") "loading") "src" src,
        style := d.style ++ "opacity:1;display:block;" }
    else d
  else d

/-- The per-element background step of `fixImages`: resolve a deferred
`data-background` attribute into the inline style. -/
def bgFixData (d : ElemData) : ElemData :=
  if d.attrs.any (fun a => a.1 == "data-background") then
    let v := match d.attrs.find? (fun a => a.1 == "data-background") with
      | some a => a.2
      | none => ""
    { d with style := d.style ++ "background-image:url(" ++ v ++ ");" }
  else d

mutual
/-- `fixImages` on a descendant: both the image pass (`querySelectorAll('img')`)
and the background pass (`querySelectorAll('[data-background]')`) reach it.
The two passes touch disjoint fields of distinct nodes, so running them
node-by-node (image step first, as in the source) is order-equivalent. -/
def fixImagesDesc : Node → Node
  | .mk d cs => .mk (bgFixData (imgFixData d)) (fixImagesDescL cs)
def fixImagesDescL : NodeList → NodeList
  | .nil => .nil
  | .cons c cs => .cons (fixImagesDesc c) (fixImagesDescL cs)
end

/-- `SnapshotService.fixImages(node)`: the image pass includes the root
(when the root is an `img`), the background pass reaches descendants only. -/
def fixImages : Node → Node
  | .mk d cs => .mk (imgFixData d) (fixImagesDescL cs)

/-! ### Script state and ambient document environment -/

/-- A captured snapshot: the element children of the stored
`DocumentFragment`, in document order. -/
abbrev Snapshot := List Node

/-- The mutable fields of `STATE` that the capture/restore engine reads or
writes.  Timer bookkeeping (`debounceTimer`, `rafId`), the observer handles
and the selector cache are scheduling artifacts with no effect on the
captured content, and the operations below model the state reached after
the corresponding timers have fired. -/
structure EngineState where
  snapshotOld : Option Snapshot
  snapshotNew : Option Snapshot
  isViewingOld : Bool
  isInternalNav : Bool
  container : Option Node
  refreshBtn : Option Node
  isListenerBound : Bool
  isInitialized : Bool
  initAttempts : Nat
  lastToast : Option String
deriving DecidableEq

/-- The ambient document at the moment an operation runs: what the two
locator functions would return, where the injected UI group lives, and
which nodes are attached to the document (`isConnected`). -/
structure Env where
  foundBtn : Option Node
  foundContainer : Option Node
  uiGroup : Option Node
  connected : List Node
deriving DecidableEq

/-- `DomUtils.isValidElement(el)`: `el && el.isConnected`. -/
def isValidElement (env : Env) : Option Node → Bool
  | some el => decide (el ∈ env.connected)
  | none => false

/-! ### `SnapshotService.capture` -/

/-- The per-child selection test of `capture`: skip the engine's own UI
group and the refresh button's subtree, then keep exactly the video cards
that are not sentinels. -/
def captureSelect (btn : Option Node) (child : Node) : Bool :=
  !(idProp child == uiContainerId) && !containsRef btn child &&
    (isVideoNode child && !isSentinelNode child)

/-- `SnapshotService.capture(container)` with `STATE.refreshBtn = btn`:
clone every selected direct child (cloning is the identity on the modelled
node value), fix its lazy-loaded media, and return `none` when no content
child was found. -/
def capture (btn : Option Node) (container : Node) : Option Snapshot :=
  let nodes := (container.children.filter (captureSelect btn)).map fixImages
  if 0 < nodes.length then some nodes else none

/-! ### `SnapshotService.isDifferent` -/

/-- `SnapshotService.isDifferent(fragA, fragB)` on nullable fragments. -/
def isDifferent (fragA fragB : Option Snapshot) : Bool :=
  match fragA, fragB with
  | some fa, some fb =>
    if fa.length != fb.length then true
    else !((firstBVFrag fa).map hrefProp == (firstBVFrag fb).map hrefProp)
  | _, _ => true

/-! ### `SnapshotService.restore` -/

/-- The keep test of `restore`: a direct child survives the swap when it is
the refresh button's top-level ancestor inside the container, the injected
UI group's top-level ancestor, a non-video node, or a sentinel.  (The
source finds the two ancestors by walking up from the reference, which for
a tree is the unique direct child whose subtree holds the reference —
`containsOrIs`; the `container.contains(ref)` guard is subsumed, since when
it fails no direct child contains the reference.) -/
def keepPred (btn uig : Option Node) (child : Node) : Bool :=
  containsRef btn child || containsRef uig child ||
    !isVideoNode child || isSentinelNode child

/-- `SnapshotService.restore(container, snapshotFragment, isUndo)`.  Returns
the rewritten container together with the updated state.  The source removes
every non-kept child in one batch and inserts a clone of the snapshot before
the first kept child (appending when none is kept); in both cases the
resulting child sequence is the snapshot's nodes followed by the kept
children in their original order.  Afterwards it updates the view flag,
re-validates the refresh button reference and re-binds the click listener. -/
def restoredBtn (env : Env) (btn : Option Node) : Option Node :=
  match btn with
  | some b => if decide (b ∈ env.connected) then some b else env.foundBtn
  | none => none

def restore (env : Env) (s : EngineState) (container : Option Node)
    (snap : Option Snapshot) (isUndo : Bool) : Option Node × EngineState :=
  match container, snap with
  | some c, some frag =>
    let kept := c.children.filter (keepPred s.refreshBtn env.uiGroup)
    let c' := c.withChildren (frag ++ kept)
    let btn' := restoredBtn env s.refreshBtn
    let bound' := if btn'.isSome then true else s.isListenerBound
    (some c', { s with isViewingOld := isUndo, refreshBtn := btn', isListenerBound := bound' })
  | _, _ => (container, s)

/-! ### `UIService` -/

/-- `UIService.update`'s undo rule: `STATE.snapshotOld && !STATE.isViewingOld`
(a stored fragment is always truthy). -/
def canUndoUI (s : EngineState) : Bool := s.snapshotOld.isSome && !s.isViewingOld

/-- `UIService.update`'s redo rule: `STATE.snapshotNew && STATE.isViewingOld`. -/
def canRedoUI (s : EngineState) : Bool := s.snapshotNew.isSome && s.isViewingOld

def undoToastMsg : String := "已返回旧页面"
def redoToastMsg : String := "已返回最新页面"

/-! ### `Core` -/

/-- The container re-acquisition at the top of `Core.handleNativeClick`:
only a null reference is replaced; a stale but non-null reference is kept. -/
def clickResolve (env : Env) (s : EngineState) : EngineState :=
  if s.container.isNone then { s with container := env.foundContainer } else s

/-- `Core.handleNativeClick`: on a native refresh click, capture the
pre-refresh content and store it as the `Old` slot when non-empty. -/
def handleNativeClick (env : Env) (s : EngineState) : EngineState :=
  if s.isInternalNav then s
  else
    let s1 := clickResolve env s
    match s1.container with
    | none => s1
    | some c =>
      match capture s1.refreshBtn c with
      | some captured =>
        if 0 < captured.length then { s1 with snapshotOld := some captured } else s1
      | none => s1

/-- The debounced stabilization check scheduled by `Core.observerCallback`
(the body of the `DEBOUNCE_TIME` timer): re-capture the container and
overwrite the `New` slot when the content actually differs. -/
def observerStabilize (s : EngineState) : EngineState :=
  if s.isInternalNav then s
  else
    match s.container with
    | none => s
    | some c =>
      match capture s.refreshBtn c with
      | none => s
      | some currentFragment =>
        if !isDifferent (some currentFragment) s.snapshotNew then s
        else { s with snapshotNew := some currentFragment, isViewingOld := false }

/-- `Core.handleUndo`: guarded by `snapshotOld` existing and the view not
already showing the old state; restores the `Old` snapshot, shows the
success toast, and releases the internal-navigation guard (the 100ms
timeout has fired by the time the next operation runs). -/
def handleUndo (env : Env) (s : EngineState) : EngineState :=
  if s.snapshotOld.isNone || s.isViewingOld then s
  else
    let r := restore env { s with isInternalNav := true } s.container s.snapshotOld true
    { r.2 with container := r.1, lastToast := some undoToastMsg, isInternalNav := false }

/-- `Core.handleRedo`: symmetric to undo. -/
def handleRedo (env : Env) (s : EngineState) : EngineState :=
  if s.snapshotNew.isNone || !s.isViewingOld then s
  else
    let r := restore env { s with isInternalNav := true } s.container s.snapshotNew false
    { r.2 with container := r.1, lastToast := some redoToastMsg, isInternalNav := false }

/-! ### `runDiscovery` -/

/-- Step 1 of `runDiscovery`: find and bind the refresh button. -/
def discoverBtnStep (env : Env) (s : EngineState) : EngineState :=
  if !isValidElement env s.refreshBtn then
    let btn := env.foundBtn
    match btn with
    | some _ => { s with refreshBtn := btn, isListenerBound := true }
    | none => { s with refreshBtn := none }
  else if !s.isListenerBound then { s with isListenerBound := true }
  else s

/-- Step 2 of `runDiscovery`: find the container, and when the `New` slot is
still empty capture the initial content into it immediately. -/
def discoverContainerStep (env : Env) (s : EngineState) : EngineState :=
  if !isValidElement env s.container then
    match env.foundContainer with
    | some nc =>
      let s1 := { s with container := some nc }
      if s1.snapshotNew.isNone then { s1 with snapshotNew := capture s1.refreshBtn nc } else s1
    | none => s
  else s

/-- `runDiscovery`: one discovery pass (steps 3 — UI injection — and the
body-observer teardown touch the document, not the modelled state beyond
the completion flag). -/
def runDiscovery (env : Env) (s : EngineState) : EngineState :=
  let s0 := { s with initAttempts := s.initAttempts + 1 }
  let s1 := discoverBtnStep env s0
  let s2 := discoverContainerStep env s1
  let complete := s2.refreshBtn.isSome && s2.container.isSome && s2.isListenerBound
  if complete && !s2.isInitialized then { s2 with isInitialized := true } else s2

/-! ### The operation alphabet of the engine's state machine -/

/-- One externally observable operation of the History Controller, tagged
with the ambient document at the moment it runs. -/
inductive Op where
  | trigger (env : Env)
  | stabilize
  | undo (env : Env)
  | redo (env : Env)
  | discover (env : Env)

def applyOp (s : EngineState) : Op → EngineState
  | .trigger env => handleNativeClick env s
  | .stabilize => observerStabilize s
  | .undo env => handleUndo env s
  | .redo env => handleRedo env s
  | .discover env => runDiscovery env s

def runOps (s : EngineState) : List Op → EngineState
  | [] => s
  | op :: rest => runOps (applyOp s op) rest

/-- The initial `STATE` literal. -/
def initState : EngineState :=
  { snapshotOld := none, snapshotNew := none, isViewingOld := false,
    isInternalNav := false, container := none, refreshBtn := none,
    isListenerBound := false, isInitialized := false, initAttempts := 0,
    lastToast := none }

/-! ### Derived notions used in the claims -/

/-- The container's content-node sequence: the direct children the
classifier marks as content. -/
def contentNodes (c : Node) : List Node := c.children.filter contentNode

/-- "The resolved URL of the first content-identifying link" of a node
sequence (a snapshot's nodes, or a container's content). -/
def firstLinkURL (ns : List Node) : Option String := (firstBVFrag ns).map hrefProp

/-- The structural reasons a direct child is kept by `restore` besides its
classification: it holds the refresh button or the injected UI group. -/
def structuralKeep (btn uig : Option Node) (child : Node) : Bool :=
  containsRef btn child || containsRef uig child

/-- Spec rule (§3): undo is permitted exactly when `Old` exists and the
view flag is not "showing Old". -/
def undoPermittedSpec (s : EngineState) : Prop :=
  s.snapshotOld ≠ none ∧ s.isViewingOld = false

/-- Spec rule (§3): redo is permitted exactly when `New` exists and the
view flag is "showing Old". -/
def redoPermittedSpec (s : EngineState) : Prop :=
  s.snapshotNew ≠ none ∧ s.isViewingOld = true

/-! ### Supporting lemmas -/

theorem capture_eq_none_iff (btn : Option Node) (c : Node) :
    capture btn c = none ↔ c.children.filter (captureSelect btn) = [] := by
  simp only [capture]
  split <;> rename_i h
  · simp only [reduceCtorEq, false_iff]
    intro hnil
    rw [hnil] at h
    simp at h
  · simp only [not_lt, Nat.le_zero, List.length_eq_zero, List.map_eq_nil_iff] at h
    simp [h]

theorem capture_eq_some (btn : Option Node) (c : Node) (frag : Snapshot)
    (h : capture btn c = some frag) :
    frag = (c.children.filter (captureSelect btn)).map fixImages ∧ 0 < frag.length := by
  simp only [capture] at h
  split at h
  · rename_i hlen
    cases h
    exact ⟨rfl, hlen⟩
  · cases h

theorem restore_none (env : Env) (s : EngineState) (co : Option Node)
    (snap : Option Snapshot) (u : Bool) (h : co = none ∨ snap = none) :
    restore env s co snap u = (co, s) := by
  rcases h with rfl | rfl
  · cases snap <;> rfl
  · cases co <;> rfl

theorem restore_none_left (env : Env) (s : EngineState) (snap : Option Snapshot)
    (u : Bool) : restore env s none snap u = (none, s) :=
  restore_none env s none snap u (Or.inl rfl)

theorem restore_some (env : Env) (s : EngineState) (c : Node) (frag : Snapshot) (u : Bool) :
    restore env s (some c) (some frag) u =
      (some (c.withChildren (frag ++ c.children.filter (keepPred s.refreshBtn env.uiGroup))),
       { s with isViewingOld := u, refreshBtn := restoredBtn env s.refreshBtn,
                isListenerBound := if (restoredBtn env s.refreshBtn).isSome then true
                  else s.isListenerBound }) := rfl

theorem keepPred_of_sentinel (btn uig : Option Node) (n : Node)
    (h : isSentinelNode n = true) : keepPred btn uig n = true := by
  simp [keepPred, h]

theorem keepPred_of_content (btn uig : Option Node) (n : Node)
    (h : contentNode n = true) :
    keepPred btn uig n = structuralKeep btn uig n := by
  have hv : isVideoNode n = true := by
    simp only [contentNode, Bool.and_eq_true] at h; exact h.1
  have hs : isSentinelNode n = false := by
    simp only [contentNode, Bool.and_eq_true, Bool.not_eq_true'] at h; exact h.2
  simp [keepPred, structuralKeep, hv, hs]

theorem contentNode_of_captureSelect (btn : Option Node) (n : Node)
    (h : captureSelect btn n = true) : contentNode n = true := by
  simp only [captureSelect, Bool.and_eq_true] at h
  simp [contentNode, h.2.1, h.2.2]

/-! ### Concrete fixtures used by the witnesses and counterexamples -/

/-- A video-card element holding one content link `/video/<h>`. -/
def bvCard (h : String) : Node :=
  .mk ⟨"div", [("class", "bili-video-card")], "", 200, 200, ""⟩
    (listN [.mk ⟨"a", [("href", "/video/" ++ h)], "", 50, 50, ""⟩ .nil])

/-- A skeleton placeholder element (classified as a sentinel). -/
def skeletonNode : Node :=
  .mk ⟨"div", [("class", "loading-skeleton")], "", 100, 100, ""⟩ .nil

/-- A container element with the given direct children. -/
def contOf (cards : List Node) : Node :=
  .mk ⟨"div", [("class", "recommended-swipe-grid")], "", 800, 600, ""⟩ (listN cards)

def oldSixCards : List Node :=
  [bvCard "BV1", bvCard "BV2", bvCard "BV3", bvCard "BV4", bvCard "BV5", bvCard "BV6"]

def newSixCards : List Node :=
  [bvCard "BV7", bvCard "BV8", bvCard "BV9", bvCard "BV10", bvCard "BV11", bvCard "BV12"]

/-- An ambient document with no refresh button and no injected UI, whose
locator would find the given container. -/
def plainEnv (c : Node) : Env :=
  { foundBtn := none, foundContainer := some c, uiGroup := none, connected := [c] }

/-! ### Claim C5 -/

/-- Claim C5: `restore(container, snapshot, markAsOld)` is atomic: when the
container or the snapshot argument is missing the container, the snapshot
slots and the view flag are all left unchanged (the result is exactly the
input pair); otherwise the content swap fully completes (the container's
children become the snapshot's nodes followed by the kept children) and the
view flag is set to the `markAsOld` argument, the snapshot slots again
untouched. -/
theorem claim5_restore_atomic (env : Env) (s : EngineState) (co : Option Node)
    (snap : Option Snapshot) (u : Bool) :
    ((co = none ∨ snap = none) → restore env s co snap u = (co, s)) ∧
    (∀ c frag, co = some c → snap = some frag →
      (restore env s co snap u).1 =
        some (c.withChildren (frag ++ c.children.filter (keepPred s.refreshBtn env.uiGroup))) ∧
      (restore env s co snap u).2.isViewingOld = u ∧
      (restore env s co snap u).2.snapshotOld = s.snapshotOld ∧
      (restore env s co snap u).2.snapshotNew = s.snapshotNew) := by
  refine ⟨fun h => restore_none env s co snap u h, ?_⟩
  rintro c frag rfl rfl
  rw [restore_some]
  exact ⟨rfl, rfl, rfl, rfl⟩

theorem claim5_witness :
    restore (plainEnv (contOf newSixCards)) initState none (some oldSixCards) true
      = (none, initState) ∧
    (restore (plainEnv (contOf newSixCards)) initState (some (contOf newSixCards))
        (some oldSixCards) true).2.isViewingOld = true := by
  refine ⟨?_, ?_⟩
  · exact (claim5_restore_atomic (plainEnv (contOf newSixCards)) initState none
      (some oldSixCards) true).1 (Or.inl rfl)
  · exact (((claim5_restore_atomic (plainEnv (contOf newSixCards)) initState
      (some (contOf newSixCards)) (some oldSixCards) true).2 (contOf newSixCards)
      oldSixCards rfl rfl).2).1

/-! ### Claim C7 -/

/-- Claim C7: for every pair of snapshots, `isDifferent` returns true
exactly when the content-node counts differ or the resolved URL of the
first content-identifying link differs between them. -/
theorem claim7_isDifferent_iff (fa fb : Snapshot) :
    isDifferent (some fa) (some fb) = true ↔
      fa.length ≠ fb.length ∨ firstLinkURL fa ≠ firstLinkURL fb := by
  by_cases hl : fa.length = fb.length
  · simp [isDifferent, firstLinkURL, hl]
  · simp [isDifferent, firstLinkURL, hl]

/-! ### Claim C4 -/

/-- Claim C4: `capture` returns `none` exactly when it finds zero content
children among the container's direct children, and an empty capture never
overwrites a stored snapshot: a trigger activation whose capture is empty
leaves the `Old` slot unchanged, and a stabilization check whose capture is
empty leaves the `New` slot unchanged. -/
theorem claim4_empty_capture_never_overwrites :
    (∀ (btn : Option Node) (c : Node),
      capture btn c = none ↔ c.children.filter (captureSelect btn) = []) ∧
    (∀ (env : Env) (s : EngineState),
      (∀ c, (clickResolve env s).container = some c →
        capture (clickResolve env s).refreshBtn c = none) →
      (handleNativeClick env s).snapshotOld = s.snapshotOld) ∧
    (∀ (s : EngineState) (c : Node), s.container = some c →
      capture s.refreshBtn c = none →
      (observerStabilize s).snapshotNew = s.snapshotNew) := by
  refine ⟨fun btn c => capture_eq_none_iff btn c, ?_, ?_⟩
  · intro env s hnone
    by_cases hi : s.isInternalNav
    · simp [handleNativeClick, hi]
    · have hold : (clickResolve env s).snapshotOld = s.snapshotOld := by
        unfold clickResolve; split <;> rfl
      simp only [handleNativeClick, hi, Bool.false_eq_true, if_false]
      cases hc : (clickResolve env s).container with
      | none => simp [hc, hold]
      | some c => simp [hc, hnone c hc, hold]
  · intro s c hc hcap
    by_cases hi : s.isInternalNav
    · simp [observerStabilize, hi]
    · simp [observerStabilize, hi, hc, hcap]

/-- A container whose capture is empty: its only child is a sentinel. -/
def emptyCaptureCont : Node := contOf [skeletonNode]

def c4StateA : EngineState :=
  { initState with container := some emptyCaptureCont, snapshotOld := some oldSixCards }

def c4StateB : EngineState :=
  { initState with container := some emptyCaptureCont, snapshotNew := some newSixCards }

theorem claim4_witness :
    capture (none : Option Node) emptyCaptureCont = none ∧
    (handleNativeClick (plainEnv emptyCaptureCont) c4StateA).snapshotOld = some oldSixCards ∧
    (observerStabilize c4StateB).snapshotNew = some newSixCards := by
  refine ⟨?_, ?_, ?_⟩
  · exact (claim4_empty_capture_never_overwrites.1 none emptyCaptureCont).mpr (by decide)
  · have h := claim4_empty_capture_never_overwrites.2.1 (plainEnv emptyCaptureCont) c4StateA
      (by
        intro c hc
        have he : c = emptyCaptureCont := by
          simp [clickResolve, c4StateA] at hc
          exact hc.symm
        subst he
        decide)
    exact h.trans rfl
  · have h := claim4_empty_capture_never_overwrites.2.2 c4StateB emptyCaptureCont rfl (by decide)
    exact h.trans rfl

/-! ### Claim C6 -/

/-- Claim C6: a node classified as a sentinel is never selected by
`capture` (every snapshot node is the processed clone of a non-sentinel
child), and every sentinel child present in the live container before a
restore is still present after it, for every snapshot and `markAsOld`
argument. -/
theorem claim6_sentinels (btn : Option Node) (env : Env) (s : EngineState) (c : Node) :
    (∀ ch ∈ c.children, isSentinelNode ch = true → captureSelect btn ch = false) ∧
    (∀ frag, capture btn c = some frag →
      ∀ n ∈ frag, ∃ ch ∈ c.children, isSentinelNode ch = false ∧ n = fixImages ch) ∧
    (∀ (snap : Option Snapshot) (u : Bool) (ch c' : Node),
      ch ∈ c.children → isSentinelNode ch = true →
      (restore env s (some c) snap u).1 = some c' → ch ∈ c'.children) := by
  refine ⟨?_, ?_, ?_⟩
  · intro ch _ hs
    simp [captureSelect, hs]
  · intro frag hcap n hn
    obtain ⟨hfrag, -⟩ := capture_eq_some btn c frag hcap
    rw [hfrag] at hn
    obtain ⟨ch, hmem, hfix⟩ := List.mem_map.mp hn
    obtain ⟨hch, hsel⟩ := List.mem_filter.mp hmem
    refine ⟨ch, hch, ?_, hfix.symm⟩
    simp only [captureSelect, Bool.and_eq_true, Bool.not_eq_true'] at hsel
    exact hsel.2.2
  · intro snap u ch c' hch hs h1
    cases snap with
    | none =>
      rw [restore_none env s (some c) none u (Or.inr rfl)] at h1
      cases h1
      exact hch
    | some frag =>
      rw [restore_some] at h1
      cases h1
      rw [children_withChildren]
      refine List.mem_append_right _ (List.mem_filter.mpr ⟨hch, ?_⟩)
      exact keepPred_of_sentinel s.refreshBtn env.uiGroup ch hs

/-- A container mixing content cards and a sentinel child. -/
def mixedCont : Node := contOf [bvCard "BV1", skeletonNode, bvCard "BV2"]

theorem claim6_witness :
    captureSelect none skeletonNode = false ∧
    skeletonNode ∈
      (mixedCont.withChildren
        (oldSixCards ++ mixedCont.children.filter (keepPred none none))).children := by
  refine ⟨?_, ?_⟩
  · exact (claim6_sentinels none (plainEnv mixedCont) initState mixedCont).1 skeletonNode
      (by decide) (by decide)
  · exact (claim6_sentinels none (plainEnv mixedCont) initState mixedCont).2.2
      (some oldSixCards) true skeletonNode
      (mixedCont.withChildren (oldSixCards ++ mixedCont.children.filter (keepPred none none)))
      (by decide) (by decide) rfl

/-! ### Claim C3 -/

/-- A container whose live capture yields a single content node — fewer
than `MIN_VIDEOS`. -/
def tinyCont : Node := contOf [bvCard "BVx"]

/-- A state holding a previously stored `New` snapshot at the moment the
trigger is activated over the degenerate container. -/
def c3State : EngineState :=
  { initState with container := some tinyCont, snapshotNew := some newSixCards }

/-- Counterexample to claim C3: with a stored `New` snapshot of six cards
and a live capture of one card (below `MIN_VIDEOS = 4`), the trigger
handler stores the degenerate one-card capture into the `Old` slot — it
does not substitute the stored `New` snapshot, and the minimum content
threshold is not applied. -/
theorem claim3_counterexample :
    (handleNativeClick (plainEnv tinyCont) c3State).snapshotOld
        = some [fixImages (bvCard "BVx")] ∧
    [fixImages (bvCard "BVx")].length < MIN_VIDEOS ∧
    c3State.snapshotNew = some newSixCards ∧
    (handleNativeClick (plainEnv tinyCont) c3State).snapshotOld ≠ c3State.snapshotNew := by
  refine ⟨by decide, by decide, rfl, by decide⟩

/-- Claim C3 as amended: on trigger activation the handler stores any
non-empty capture into the `Old` slot — the threshold is one content node,
not `MIN_VIDEOS` — and when the capture is empty it leaves the state
unchanged; the previously stored `New` snapshot is never substituted. -/
theorem claim3_amended_old_slot (env : Env) (s : EngineState) (c : Node)
    (hi : s.isInternalNav = false) (hc : s.container = some c) :
    (∀ frag, capture s.refreshBtn c = some frag →
      handleNativeClick env s = { s with snapshotOld := some frag }) ∧
    (capture s.refreshBtn c = none → handleNativeClick env s = s) := by
  have hres : clickResolve env s = s := by
    simp [clickResolve, hc]
  constructor
  · intro frag hfrag
    obtain ⟨-, hlen⟩ := capture_eq_some s.refreshBtn c frag hfrag
    simp [handleNativeClick, hi, hres, hc, hfrag, hlen]
  · intro hnone
    simp [handleNativeClick, hi, hres, hc, hnone]

theorem claim3_amended_witness :
    handleNativeClick (plainEnv tinyCont) c3State
      = { c3State with snapshotOld := some [fixImages (bvCard "BVx")] } ∧
    handleNativeClick (plainEnv emptyCaptureCont)
        { initState with container := some emptyCaptureCont }
      = { initState with container := some emptyCaptureCont } := by
  constructor
  · exact (claim3_amended_old_slot (plainEnv tinyCont) c3State tinyCont rfl rfl).1
      [fixImages (bvCard "BVx")] (by decide)
  · exact (claim3_amended_old_slot (plainEnv emptyCaptureCont)
      { initState with container := some emptyCaptureCont } emptyCaptureCont rfl rfl).2
      (by decide)

/-! ### Claim C2 -/

/-- Claim C2: after every sequence of trigger-activation, stabilization,
undo and redo operations (and discovery passes), the view flag is exactly
one of "showing New" (`isViewingOld = false`) or "showing Old"
(`isViewingOld = true`); the undo command is enabled by `UIService.update`
and acts in `handleUndo` exactly when the `Old` slot holds a snapshot and
the flag is not "showing Old" (acting shows the undo toast, and flips the
flag whenever a container reference is held); and the redo command is
enabled and acts exactly when the `New` slot holds a snapshot and the flag
is "showing Old". -/
theorem claim2_state_machine (ops : List Op) :
    ((runOps initState ops).isViewingOld = false ∧ ¬(runOps initState ops).isViewingOld = true
      ∨ (runOps initState ops).isViewingOld = true ∧ ¬(runOps initState ops).isViewingOld = false) ∧
    (canUndoUI (runOps initState ops) = true ↔ undoPermittedSpec (runOps initState ops)) ∧
    (canRedoUI (runOps initState ops) = true ↔ redoPermittedSpec (runOps initState ops)) ∧
    (∀ env, ¬undoPermittedSpec (runOps initState ops) →
      handleUndo env (runOps initState ops) = runOps initState ops) ∧
    (∀ env, undoPermittedSpec (runOps initState ops) →
      (handleUndo env (runOps initState ops)).lastToast = some undoToastMsg ∧
      (∀ c, (runOps initState ops).container = some c →
        (handleUndo env (runOps initState ops)).isViewingOld = true)) ∧
    (∀ env, ¬redoPermittedSpec (runOps initState ops) →
      handleRedo env (runOps initState ops) = runOps initState ops) ∧
    (∀ env, redoPermittedSpec (runOps initState ops) →
      (handleRedo env (runOps initState ops)).lastToast = some redoToastMsg ∧
      (∀ c, (runOps initState ops).container = some c →
        (handleRedo env (runOps initState ops)).isViewingOld = false)) := by
  generalize runOps initState ops = s
  refine ⟨?_, ?_, ?_, ?_, ?_, ?_, ?_⟩
  · cases h : s.isViewingOld
    · exact Or.inl ⟨rfl, by simp [h]⟩
    · exact Or.inr ⟨rfl, by simp [h]⟩
  · simp [canUndoUI, undoPermittedSpec, Option.isSome_iff_ne_none]
  · simp [canRedoUI, redoPermittedSpec, Option.isSome_iff_ne_none]
  · intro env hperm
    simp only [undoPermittedSpec, not_and_or, ne_eq, not_not] at hperm
    rcases hperm with hold | hview
    · simp [handleUndo, hold]
    · have : s.isViewingOld = true := by
        cases h : s.isViewingOld
        · exact absurd h hview
        · rfl
      simp [handleUndo, this]
  · intro env hperm
    obtain ⟨hold, hview⟩ := hperm
    obtain ⟨o, ho⟩ := Option.ne_none_iff_exists'.mp hold
    constructor
    · simp [handleUndo, ho, hview]
    · intro c hc
      simp [handleUndo, ho, hview, hc, restore_some]
  · intro env hperm
    simp only [redoPermittedSpec, not_and_or, ne_eq, not_not] at hperm
    rcases hperm with hnew | hview
    · simp [handleRedo, hnew]
    · have : s.isViewingOld = false := by
        cases h : s.isViewingOld
        · rfl
        · exact absurd h hview
      simp [handleRedo, this]
  · intro env hperm
    obtain ⟨hnew, hview⟩ := hperm
    obtain ⟨o, ho⟩ := Option.ne_none_iff_exists'.mp hnew
    constructor
    · simp [handleRedo, ho, hview]
    · intro c hc
      simp [handleRedo, ho, hview, hc, restore_some]

/-- The ambient document for the claim C2 witness run: a six-card container
discoverable by the locator. -/
def c2Env : Env := plainEnv (contOf oldSixCards)

theorem claim2_witness :
    canUndoUI (runOps initState [Op.discover c2Env, Op.trigger c2Env]) = true ∧
    (handleUndo c2Env (runOps initState [Op.discover c2Env, Op.trigger c2Env])).lastToast
      = some undoToastMsg ∧
    handleUndo c2Env (runOps initState []) = runOps initState [] := by
  refine ⟨?_, ?_, ?_⟩
  · exact (claim2_state_machine [Op.discover c2Env, Op.trigger c2Env]).2.1.mpr
      ⟨by decide, by decide⟩
  · exact ((claim2_state_machine [Op.discover c2Env, Op.trigger c2Env]).2.2.2.2.1 c2Env
      ⟨by decide, by decide⟩).1
  · exact (claim2_state_machine []).2.2.2.1 c2Env (fun h => h.1 rfl)

/-! ### Claim C1 -/

/-- Claim C1: with a pre-trigger capture stored in the `Old` slot and a
stabilized post-trigger capture stored in the `New` slot, undo makes the
live container's content equal to the `Old` snapshot's content (same
content-node count, same first content-link URL), and a subsequent redo
makes it equal to the `New` snapshot's content.  The hypotheses state the
snapshot data-model invariants: the stored snapshots consist of content
nodes that hold neither the refresh button nor the injected UI, the
structurally kept children of the container are not content, and the held
refresh-button reference survives revalidation. -/
theorem claim1_roundtrip (env : Env) (s : EngineState) (c : Node) (O N : Snapshot)
    (hc : s.container = some c) (hO : s.snapshotOld = some O) (hN : s.snapshotNew = some N)
    (hview : s.isViewingOld = false)
    (hbtn : restoredBtn env s.refreshBtn = s.refreshBtn)
    (hkeep : ∀ ch ∈ c.children, structuralKeep s.refreshBtn env.uiGroup ch = true →
      contentNode ch = false)
    (hOc : ∀ n ∈ O, contentNode n = true ∧ structuralKeep s.refreshBtn env.uiGroup n = false)
    (hNc : ∀ n ∈ N, contentNode n = true) :
    ∃ c1 c2,
      (handleUndo env s).container = some c1 ∧
      (contentNodes c1).length = O.length ∧
      firstLinkURL (contentNodes c1) = firstLinkURL O ∧
      (handleRedo env (handleUndo env s)).container = some c2 ∧
      (contentNodes c2).length = N.length ∧
      firstLinkURL (contentNodes c2) = firstLinkURL N := by
  have hkc : (c.children.filter (keepPred s.refreshBtn env.uiGroup)).filter contentNode = [] := by
    refine List.filter_eq_nil_iff.mpr ?_
    intro x hx
    obtain ⟨hxc, hxk⟩ := List.mem_filter.mp hx
    intro hcontra
    have hsk : structuralKeep s.refreshBtn env.uiGroup x = true := by
      rw [keepPred_of_content _ _ _ hcontra] at hxk
      exact hxk
    rw [hkeep x hxc hsk] at hcontra
    cases hcontra
  have hOfull : O.filter contentNode = O :=
    List.filter_eq_self.mpr (fun n hn => (hOc n hn).1)
  have hNfull : N.filter contentNode = N :=
    List.filter_eq_self.mpr (fun n hn => hNc n hn)
  have f1 : (handleUndo env s).container =
      some (c.withChildren (O ++ c.children.filter (keepPred s.refreshBtn env.uiGroup))) := by
    simp [handleUndo, hO, hview, hc, restore_some]
  have f2 : (handleUndo env s).isViewingOld = true := by
    simp [handleUndo, hO, hview, hc, restore_some]
  have f3 : (handleUndo env s).snapshotNew = some N := by
    simp [handleUndo, hO, hview, hc, restore_some, hN]
  have f5 : (handleUndo env s).refreshBtn = s.refreshBtn := by
    simp [handleUndo, hO, hview, hc, restore_some, hbtn]
  have hc1content :
      contentNodes (c.withChildren (O ++ c.children.filter (keepPred s.refreshBtn env.uiGroup)))
        = O := by
    simp [contentNodes, children_withChildren, List.filter_append, hOfull, hkc]
  have hOnokeep : O.filter (keepPred s.refreshBtn env.uiGroup) = [] := by
    refine List.filter_eq_nil_iff.mpr ?_
    intro n hn
    rw [keepPred_of_content _ _ _ (hOc n hn).1, (hOc n hn).2]
    simp
  have hkeptkeep :
      (c.children.filter (keepPred s.refreshBtn env.uiGroup)).filter
        (keepPred s.refreshBtn env.uiGroup)
        = c.children.filter (keepPred s.refreshBtn env.uiGroup) :=
    List.filter_eq_self.mpr (fun x hx => (List.mem_filter.mp hx).2)
  have hfilterc1 :
      (c.withChildren (O ++ c.children.filter (keepPred s.refreshBtn env.uiGroup))).children.filter
        (keepPred s.refreshBtn env.uiGroup)
        = c.children.filter (keepPred s.refreshBtn env.uiGroup) := by
    rw [children_withChildren, List.filter_append, hOnokeep, hkeptkeep, List.nil_append]
  have g1 : (handleRedo env (handleUndo env s)).container =
      some ((c.withChildren (O ++ c.children.filter (keepPred s.refreshBtn env.uiGroup))).withChildren
        (N ++ c.children.filter (keepPred s.refreshBtn env.uiGroup))) := by
    simp only [handleRedo, f3, Option.isNone_some, f2, Bool.not_true, Bool.false_eq_true,
      Bool.or_self, if_false]
    simp [f1, f5, restore_some, hfilterc1]
  have hc2content :
      contentNodes ((c.withChildren (O ++ c.children.filter (keepPred s.refreshBtn env.uiGroup))).withChildren
        (N ++ c.children.filter (keepPred s.refreshBtn env.uiGroup))) = N := by
    simp [contentNodes, children_withChildren, List.filter_append, hNfull, hkc]
  refine ⟨_, _, f1, ?_, ?_, g1, ?_, ?_⟩
  · rw [hc1content]
  · rw [hc1content]
  · rw [hc2content]
  · rw [hc2content]

/-- The spec scenario state: `Old` = {BV1..BV6} captured before the
trigger, `New` = {BV7..BV12} captured after stabilization, currently
showing the new content. -/
def c1State : EngineState :=
  { initState with
    container := some (contOf newSixCards)
    snapshotOld := some oldSixCards
    snapshotNew := some newSixCards }

theorem claim1_witness :
    ∃ c1 c2,
      (handleUndo (plainEnv (contOf newSixCards)) c1State).container = some c1 ∧
      (contentNodes c1).length = oldSixCards.length ∧
      firstLinkURL (contentNodes c1) = firstLinkURL oldSixCards ∧
      (handleRedo (plainEnv (contOf newSixCards))
        (handleUndo (plainEnv (contOf newSixCards)) c1State)).container = some c2 ∧
      (contentNodes c2).length = newSixCards.length ∧
      firstLinkURL (contentNodes c2) = firstLinkURL newSixCards :=
  claim1_roundtrip (plainEnv (contOf newSixCards)) c1State (contOf newSixCards)
    oldSixCards newSixCards rfl rfl rfl rfl (by decide) (by decide) (by decide) (by decide)

/-! ### Claim C9 -/

theorem withChildren_withChildren (n : Node) (a b : List Node) :
    (n.withChildren a).withChildren b = n.withChildren b := by
  simp [Node.withChildren, Node.data]

/-- Claim C9: `restore` is idempotent in content: for every container and
snapshot `S` (satisfying the snapshot data-model invariant that its nodes
are content nodes holding neither the refresh button nor the injected UI,
with the button reference surviving revalidation), invoking restore twice
consecutively leaves the container's content-node sequence identical to
invoking it once. -/
theorem claim9_restore_idempotent (env : Env) (s : EngineState) (c : Node)
    (S : Snapshot) (m : Bool)
    (hbtn : restoredBtn env s.refreshBtn = s.refreshBtn)
    (hS : ∀ n ∈ S, contentNode n = true ∧ structuralKeep s.refreshBtn env.uiGroup n = false) :
    ∀ c1 c2,
      (restore env s (some c) (some S) m).1 = some c1 →
      (restore env (restore env s (some c) (some S) m).2 (some c1) (some S) m).1 = some c2 →
      contentNodes c2 = contentNodes c1 := by
  have hSnokeep : S.filter (keepPred s.refreshBtn env.uiGroup) = [] := by
    refine List.filter_eq_nil_iff.mpr ?_
    intro n hn
    rw [keepPred_of_content _ _ _ (hS n hn).1, (hS n hn).2]
    simp
  have hkeptkeep :
      (c.children.filter (keepPred s.refreshBtn env.uiGroup)).filter
        (keepPred s.refreshBtn env.uiGroup)
        = c.children.filter (keepPred s.refreshBtn env.uiGroup) :=
    List.filter_eq_self.mpr (fun x hx => (List.mem_filter.mp hx).2)
  intro c1 c2 h1 h2
  rw [restore_some] at h1
  simp only [Option.some.injEq] at h1
  rw [restore_some, restore_some] at h2
  simp only [Option.some.injEq] at h2
  subst h1
  subst h2
  simp only [hbtn, children_withChildren, List.filter_append, hSnokeep, hkeptkeep,
    List.nil_append, withChildren_withChildren]

def c9Env : Env := plainEnv (contOf newSixCards)

def c9First : Node :=
  (contOf newSixCards).withChildren
    (oldSixCards ++ (contOf newSixCards).children.filter (keepPred none none))

def c9Second : Node :=
  c9First.withChildren (oldSixCards ++ c9First.children.filter (keepPred none none))

theorem claim9_witness : contentNodes c9Second = contentNodes c9First :=
  claim9_restore_idempotent c9Env initState (contOf newSixCards) oldSixCards true
    rfl (by decide) c9First c9Second (by decide) (by decide)

/-! ### Claim C8 -/

/-- A state at the moment undo is invoked with no stored container but a
stored `Old` snapshot. -/
def c8State : EngineState := { initState with snapshotOld := some oldSixCards }

/-- An ambient document in which the locator would find a live six-card
container. -/
def c8Env : Env := plainEnv (contOf newSixCards)

/-- A state holding a stored container reference that is no longer attached
to the document. -/
def c8StaleState : EngineState := { initState with container := some (contOf oldSixCards) }

/-- An ambient document in which the stored container is detached and a
fresh one would be found by the locator. -/
def c8StaleEnv : Env :=
  { foundBtn := none, foundContainer := some (contOf newSixCards), uiGroup := none,
    connected := [contOf newSixCards] }

/-- Counterexample to claim C8: the undo handler does not re-acquire a
container before restoring — with no stored container and a live container
available to the locator it performs no restore (the container stays null
and the view flag stays "showing New"), yet still shows the success notice
rather than failing closed; and the trigger handler captures from a stored
container reference that is detached from the document, instead of
re-acquiring the live one. -/
theorem claim8_counterexample :
    (handleUndo c8Env c8State).container = none ∧
    (handleUndo c8Env c8State).isViewingOld = false ∧
    (handleUndo c8Env c8State).lastToast = some undoToastMsg ∧
    c8Env.foundContainer = some (contOf newSixCards) ∧
    c8State.snapshotOld = some oldSixCards ∧
    c8StaleState.container = some (contOf oldSixCards) ∧
    (contOf oldSixCards) ∉ c8StaleEnv.connected ∧
    (handleNativeClick c8StaleEnv c8StaleState).snapshotOld = some oldSixCards := by
  refine ⟨by decide, by decide, by decide, rfl, rfl, rfl, by decide, by decide⟩

/-- Claim C8 amended: consumers do not revalidate the container.
`handleNativeClick` re-acquires one only when the stored reference is null;
when a reference is stored — live or detached — the handler's result is
independent of the ambient document, i.e. the stale reference is used
as-is.  `handleUndo`/`handleRedo` never re-acquire: when their slot/flag
preconditions hold but no container is stored, they leave the container and
the view flag unchanged while still showing the success notice. -/
theorem claim8_amended_no_revalidation (env env2 : Env) (s : EngineState) :
    (s.container.isSome = true → handleNativeClick env s = handleNativeClick env2 s) ∧
    (s.container = none → s.isInternalNav = false →
      (handleNativeClick env s).container = env.foundContainer) ∧
    (s.container = none → s.snapshotOld.isSome = true → s.isViewingOld = false →
      (handleUndo env s).container = none ∧ (handleUndo env s).isViewingOld = false ∧
      (handleUndo env s).lastToast = some undoToastMsg) ∧
    (s.container = none → s.snapshotNew.isSome = true → s.isViewingOld = true →
      (handleRedo env s).container = none ∧ (handleRedo env s).isViewingOld = true ∧
      (handleRedo env s).lastToast = some redoToastMsg) := by
  refine ⟨?_, ?_, ?_, ?_⟩
  · intro hsome
    have hfalse : s.container.isNone = false := by
      cases hc : s.container
      · rw [hc] at hsome; cases hsome
      · rfl
    have h1 : clickResolve env s = s := by simp [clickResolve, hfalse]
    have h2 : clickResolve env2 s = s := by simp [clickResolve, hfalse]
    simp only [handleNativeClick, h1, h2]
  · intro hc hi
    have h1 : clickResolve env s = { s with container := env.foundContainer } := by
      simp [clickResolve, hc]
    cases hf : env.foundContainer with
    | none => simp [handleNativeClick, hi, h1, hf]
    | some c =>
      simp only [handleNativeClick, hi, h1, hf, Bool.false_eq_true, if_false]
      cases hcap : capture s.refreshBtn c with
      | none => simp [hcap]
      | some frag =>
        simp only [hcap]
        split <;> rfl
  · intro hc hold hview
    obtain ⟨o, ho⟩ := Option.isSome_iff_exists.mp hold
    refine ⟨?_, ?_, ?_⟩ <;> simp [handleUndo, ho, hview, hc, restore_none_left]
  · intro hc hnew hview
    obtain ⟨o, ho⟩ := Option.isSome_iff_exists.mp hnew
    refine ⟨?_, ?_, ?_⟩ <;> simp [handleRedo, ho, hview, hc, restore_none_left]

theorem claim8_amended_witness :
    handleNativeClick c8StaleEnv c8StaleState = handleNativeClick c8Env c8StaleState ∧
    (handleNativeClick c8Env c8State).container = c8Env.foundContainer ∧
    (handleUndo c8Env c8State).lastToast = some undoToastMsg := by
  refine ⟨?_, ?_, ?_⟩
  · exact (claim8_amended_no_revalidation c8StaleEnv c8Env c8StaleState).1 rfl
  · exact (claim8_amended_no_revalidation c8Env c8Env c8State).2.1 rfl rfl
  · exact ((claim8_amended_no_revalidation c8Env c8Env c8State).2.2.1 rfl rfl rfl).2.2

/-! ### Claim C10 -/

theorem discoverBtnStep_fields (env : Env) (t : EngineState) :
    (discoverBtnStep env t).container = t.container ∧
    (discoverBtnStep env t).snapshotNew = t.snapshotNew ∧
    (discoverBtnStep env t).isViewingOld = t.isViewingOld := by
  unfold discoverBtnStep
  split
  · cases env.foundBtn <;> exact ⟨rfl, rfl, rfl⟩
  · split <;> exact ⟨rfl, rfl, rfl⟩

theorem discoverContainerStep_found (env : Env) (t : EngineState) (nc : Node)
    (hval : isValidElement env t.container = false)
    (hfound : env.foundContainer = some nc) (hnew : t.snapshotNew = none) :
    discoverContainerStep env t =
      { t with container := some nc, snapshotNew := capture t.refreshBtn nc } := by
  unfold discoverContainerStep
  simp [hval, hfound, hnew]

/-- Claim C10: on a discovery pass in which the stored container reference
is not live and the locator finds a container, the engine stores the new
container and — the `New` slot being still empty — immediately captures its
current content into the `New` slot, leaving the view flag untouched
("showing New" before any trigger activation); and a stabilization check
whose capture is not different from the stored `New` baseline leaves the
state unchanged, so this pre-populated snapshot is exactly what the first
stabilization check compares against. -/
theorem claim10_initial_new_capture (env : Env) (s : EngineState) (nc : Node)
    (hvalid : isValidElement env s.container = false)
    (hfound : env.foundContainer = some nc)
    (hnew : s.snapshotNew = none) :
    (runDiscovery env s).container = some nc ∧
    (runDiscovery env s).snapshotNew = capture (runDiscovery env s).refreshBtn nc ∧
    (runDiscovery env s).isViewingOld = s.isViewingOld ∧
    (∀ (t : EngineState) (c : Node), t.container = some c → t.isInternalNav = false →
      isDifferent (capture t.refreshBtn c) t.snapshotNew = false →
      observerStabilize t = t) := by
  have hb := discoverBtnStep_fields env { s with initAttempts := s.initAttempts + 1 }
  have hc2 : discoverContainerStep env
        (discoverBtnStep env { s with initAttempts := s.initAttempts + 1 }) =
      { discoverBtnStep env { s with initAttempts := s.initAttempts + 1 } with
        container := some nc,
        snapshotNew := capture
          (discoverBtnStep env { s with initAttempts := s.initAttempts + 1 }).refreshBtn nc } := by
    refine discoverContainerStep_found env _ nc ?_ hfound ?_
    · rw [hb.1]; exact hvalid
    · rw [hb.2.1]; exact hnew
  refine ⟨?_, ?_, ?_, ?_⟩
  · simp only [runDiscovery, hc2]
    split <;> rfl
  · simp only [runDiscovery, hc2]
    split <;> rfl
  · simp only [runDiscovery, hc2]
    split
    · exact hb.2.2
    · exact hb.2.2
  · intro t c hc hi hdiff
    cases hcap : capture t.refreshBtn c with
    | none =>
      rw [hcap] at hdiff
      have htrue : isDifferent none t.snapshotNew = true := by
        cases t.snapshotNew <;> rfl
      rw [htrue] at hdiff
      cases hdiff
    | some frag =>
      rw [hcap] at hdiff
      simp [observerStabilize, hi, hc, hcap, hdiff]

/-- The native refresh control of the host page. -/
def rollBtn : Node := .mk ⟨"button", [("class", "roll-btn")], "换一换", 40, 90, ""⟩ .nil

/-- An ambient document exposing the refresh button and a six-card
container to a first discovery pass. -/
def c10Env : Env :=
  { foundBtn := some rollBtn, foundContainer := some (contOf oldSixCards),
    uiGroup := none, connected := [] }

theorem claim10_witness :
    (runDiscovery c10Env initState).container = some (contOf oldSixCards) ∧
    (runDiscovery c10Env initState).snapshotNew
      = capture (runDiscovery c10Env initState).refreshBtn (contOf oldSixCards) ∧
    (runDiscovery c10Env initState).isViewingOld = initState.isViewingOld ∧
    observerStabilize (runDiscovery c10Env initState) = runDiscovery c10Env initState := by
  have h := claim10_initial_new_capture c10Env initState (contOf oldSixCards) rfl rfl rfl
  exact ⟨h.1, h.2.1, h.2.2.1,
    h.2.2.2 (runDiscovery c10Env initState) (contOf oldSixCards) h.1 (by decide) (by decide)⟩
